import Mathlib

/-!
# llhttp: the semantic decision core of `src/native/http.c`

A shallow embedding of the C functions of `http.c` and theorems about them.

* C `int` results are `Int`; unsigned fields (`flags`, `status_code`, `content_length`,
  `http_major`, `http_minor`, `upgrade`) are `Nat`; the operations applied to them (`&`,
  `|`, `==`, `>`, `/ 100`) cannot overflow. The one narrowing conversion, the cast
  `(uint16_t)` of a pointer difference into `method_length`, is taken modulo 65536.
* Pointers are addresses (`Nat`, `NULL` is 0) into a memory `mem : Nat → Nat` of bytes.
* A C condition `e` on an integer is embedded as `e ≠ 0`.
* A function that mutates `*parser` returns the pair (result, new state).
* The header `llhttp.h` is not among the sources: the values of the flag masks are taken as
  a parameter `K : llhttp_flags`; the enums and the record are modelled from the names the
  source uses.
-/

namespace Llhttp

/-- Modelled from the spec: the enum `llhttp_type` is declared in `llhttp.h` (absent); the
source names `HTTP_BOTH`, `HTTP_REQUEST` and `HTTP_RESPONSE`, the spec's kinds EITHER,
REQUEST and RESPONSE. -/
inductive llhttp_type_t where
  | HTTP_BOTH
  | HTTP_REQUEST
  | HTTP_RESPONSE
  deriving DecidableEq, Repr

/-- Modelled from the spec: the enum `llhttp_finish` is declared in `llhttp.h` (absent); the
source names `HTTP_FINISH_SAFE` only, the spec's finish states are SAFE and INCOMPLETE. -/
inductive llhttp_finish_t where
  | HTTP_FINISH_SAFE
  | HTTP_FINISH_INCOMPLETE
  deriving DecidableEq, Repr

/-- Modelled from the spec: the masks of enum `llhttp_flags` are declared in `llhttp.h`
(absent). Their numeric values are a parameter of the embedding; a theorem that needs a mask
to be a single bit says so in a hypothesis. -/
structure llhttp_flags where
  F_CONNECTION_KEEP_ALIVE : Nat
  F_CONNECTION_CLOSE : Nat
  F_CONNECTION_UPGRADE : Nat
  F_CHUNKED : Nat
  F_UPGRADE : Nat
  F_CONTENT_LENGTH : Nat
  F_SKIPBODY : Nat
  F_LENIENT : Nat
  F_TRANSFER_ENCODING : Nat
  F_METHOD_CONNECT : Nat
  deriving DecidableEq, Repr

/-- Modelled from the spec: the record `llhttp_t` is declared in `llhttp.h` (absent); these
are the fields `http.c` reads or writes. Pointers are addresses, `NULL` is 0. -/
structure llhttp_t where
  type : llhttp_type_t
  http_major : Nat
  http_minor : Nat
  flags : Nat
  upgrade : Nat
  status_code : Nat
  content_length : Nat
  finish : llhttp_finish_t
  method : Nat
  method_or_protocol : Nat
  method_length : Nat
  deriving DecidableEq, Repr

/-- A mask that is one bit. -/
def IsFlagBit (m : Nat) : Prop := ∃ i : Nat, m = 2 ^ i

/-- A sample assignment of ten distinct bits to the masks, for concrete evaluations. -/
def sampleFlags : llhttp_flags where
  F_CONNECTION_KEEP_ALIVE := 0x1
  F_CONNECTION_CLOSE := 0x2
  F_CONNECTION_UPGRADE := 0x4
  F_CHUNKED := 0x8
  F_UPGRADE := 0x10
  F_CONTENT_LENGTH := 0x20
  F_SKIPBODY := 0x40
  F_LENIENT := 0x100
  F_TRANSFER_ENCODING := 0x200
  F_METHOD_CONNECT := 0x400

/-- A request `GET / HTTP/1.1` without headers: no flag set. -/
def sampleRequest : llhttp_t where
  type := llhttp_type_t.HTTP_REQUEST
  http_major := 1
  http_minor := 1
  flags := 0
  upgrade := 0
  status_code := 0
  content_length := 0
  finish := llhttp_finish_t.HTTP_FINISH_INCOMPLETE
  method := 0
  method_or_protocol := 0
  method_length := 0

/-- A response `HTTP/1.1 200 OK` without headers: no flag set. -/
def sampleResponse : llhttp_t :=
  { sampleRequest with type := llhttp_type_t.HTTP_RESPONSE, status_code := 200 }

/-- `llhttp_message_needs_eof` (http.c, lines 116-140). -/
def llhttp_message_needs_eof (K : llhttp_flags) (parser : llhttp_t) : Int :=
  if parser.type = llhttp_type_t.HTTP_REQUEST then
    0
  else if parser.status_code / 100 = 1 ∨
      parser.status_code = 204 ∨
      parser.status_code = 304 ∨
      (parser.flags &&& K.F_SKIPBODY) ≠ 0 then
    0
  else if (parser.flags &&& K.F_TRANSFER_ENCODING) ≠ 0 ∧
      (parser.flags &&& K.F_CHUNKED) = 0 then
    1
  else if (parser.flags &&& (K.F_CHUNKED ||| K.F_CONTENT_LENGTH)) ≠ 0 then
    0
  else
    1

/-- `llhttp_should_keep_alive` (http.c, lines 170-184). -/
def llhttp_should_keep_alive (K : llhttp_flags) (parser : llhttp_t) : Int :=
  if parser.http_major > 0 ∧ parser.http_minor > 0 then
    if (parser.flags &&& K.F_CONNECTION_CLOSE) ≠ 0 then
      0
    else if llhttp_message_needs_eof K parser = 0 then 1 else 0
  else
    if ¬ ((parser.flags &&& K.F_CONNECTION_KEEP_ALIVE) ≠ 0) then
      0
    else if llhttp_message_needs_eof K parser = 0 then 1 else 0

/-- `llhttp__before_headers_complete` (http.c, lines 18-33): result and new state. -/
def llhttp__before_headers_complete (K : llhttp_flags) (parser : llhttp_t) :
    Int × llhttp_t :=
  if (parser.flags &&& K.F_UPGRADE) ≠ 0 ∧
      (parser.flags &&& K.F_CONNECTION_UPGRADE) ≠ 0 then
    (0, { parser with
          upgrade := if parser.type = llhttp_type_t.HTTP_REQUEST ∨
                        parser.status_code = 101 then 1 else 0 })
  else
    (0, { parser with
          upgrade := if K.F_METHOD_CONNECT = (parser.flags &&& K.F_METHOD_CONNECT)
                     then 1 else 0 })

/-- The local `hasBody` of `llhttp__after_headers_complete` (http.c, line 48), a C `int`
holding the value of `parser->flags & F_CHUNKED || parser->content_length > 0`. -/
def hasBody (K : llhttp_flags) (parser : llhttp_t) : Int :=
  if (parser.flags &&& K.F_CHUNKED) ≠ 0 ∨ parser.content_length > 0 then 1 else 0

/-- `llhttp__after_headers_complete` (http.c, lines 44-98): result and state; the function
takes `parser` by pointer and never writes through it. -/
def llhttp__after_headers_complete (K : llhttp_flags) (parser : llhttp_t) :
    Int × llhttp_t :=
  if parser.upgrade ≠ 0 ∧
      (K.F_METHOD_CONNECT = (parser.flags &&& K.F_METHOD_CONNECT) ∨
        (parser.flags &&& K.F_SKIPBODY) ≠ 0 ∨ hasBody K parser = 0) then
    (1, parser)
  else if (parser.flags &&& K.F_SKIPBODY) ≠ 0 then
    (0, parser)
  else if (parser.flags &&& K.F_CHUNKED) ≠ 0 then
    (2, parser)
  else if (parser.flags &&& K.F_TRANSFER_ENCODING) ≠ 0 then
    if parser.type = llhttp_type_t.HTTP_REQUEST ∧ (parser.flags &&& K.F_LENIENT) = 0 then
      (5, parser)
    else
      (4, parser)
  else
    if ¬ ((parser.flags &&& K.F_CONTENT_LENGTH) ≠ 0) then
      if llhttp_message_needs_eof K parser = 0 then
        (0, parser)
      else
        (4, parser)
    else if parser.content_length = 0 then
      (0, parser)
    else
      (3, parser)

/-- `llhttp__after_message_complete` (http.c, lines 101-113): result and new state. -/
def llhttp__after_message_complete (K : llhttp_flags) (parser : llhttp_t) :
    Int × llhttp_t :=
  let should_keep_alive := llhttp_should_keep_alive K parser
  (should_keep_alive,
    { parser with
      finish := llhttp_finish_t.HTTP_FINISH_SAFE,
      flags := parser.flags &&& K.F_LENIENT })

/-- The bytes of the string literal `"CONNECT"` that `HTTP_CONNECT` points to (http.c,
line 16), the terminating NUL included. -/
def HTTP_CONNECT : List Nat := [67, 79, 78, 78, 69, 67, 84, 0]

/-- The C library's `memcmp` on two byte sequences, each read through a function from the
offset to the byte: 0 when the first `n` bytes agree, else the difference of the first two
bytes that differ. -/
def memcmp (s1 s2 : Nat → Nat) : Nat → Int
  | 0 => 0
  | n + 1 =>
    if s1 0 = s2 0 then memcmp (fun i => s1 (i + 1)) (fun i => s2 (i + 1)) n
    else (s1 0 : Int) - (s2 0 : Int)

/-- The C expression `flags & ~m` on an unsigned word: the bits of `m` are cleared. -/
def clearMask (flags m : Nat) : Nat := flags ^^^ (flags &&& m)

/-- The handler a call of `llhttp__internal_c_on_method` invokes, with the span it passes:
`llhttp__on_method(parser, p, endp)`, `llhttp__on_protocol(parser, p, endp)`, or none. -/
inductive handler_call_t where
  | no_call
  | on_method (p endp : Nat)
  | on_protocol (p endp : Nat)
  deriving DecidableEq, Repr

/-- `llhttp__internal_c_on_method` (http.c, lines 143-167): result, new state and the handler
call made. `mem` is the memory the pointers read; `llhttp__on_method` and
`llhttp__on_protocol` are declared in http.c (lines 13-14) and defined elsewhere, they take
the parser as `const` and are parameters here. `method_length` is written through the cast
`(uint16_t)`, that is modulo 65536. -/
def llhttp__internal_c_on_method (K : llhttp_flags) (mem : Nat → Nat)
    (llhttp__on_method llhttp__on_protocol : llhttp_t → Nat → Nat → Int)
    (parser : llhttp_t) (p endp : Nat) : Int × llhttp_t × handler_call_t :=
  let parser := if parser.method = 0 then { parser with method := p } else parser
  if parser.type = llhttp_type_t.HTTP_BOTH then
    if parser.method_or_protocol = 0 then
      (0, { parser with method_or_protocol := p }, handler_call_t.no_call)
    else
      (0, parser, handler_call_t.no_call)
  else
    let p := if parser.method_or_protocol ≠ 0 then parser.method_or_protocol else p
    let parser :=
      if parser.method_or_protocol ≠ 0 then { parser with method_or_protocol := 0 }
      else parser
    if parser.type = llhttp_type_t.HTTP_RESPONSE then
      (llhttp__on_protocol parser p endp, parser, handler_call_t.on_protocol p endp)
    else
      let parser :=
        { parser with
          method_length := (((endp : Int) - (parser.method : Int)) % 65536).toNat }
      let parser :=
        if 7 = parser.method_length ∧
            0 = memcmp (fun i => HTTP_CONNECT.getD i 0) (fun i => mem (parser.method + i))
                  parser.method_length then
          { parser with flags := parser.flags ||| K.F_METHOD_CONNECT }
        else
          { parser with flags := clearMask parser.flags K.F_METHOD_CONNECT }
      (llhttp__on_method parser p endp, parser, handler_call_t.on_method p endp)

/-! ## The vocabulary of the specification -/

/-- The flag of mask `m` is set in `flags`: the C test `flags & m`. -/
def flagSet (flags m : Nat) : Prop := (flags &&& m) ≠ 0

instance instDecidableFlagSet (flags m : Nat) : Decidable (flagSet flags m) :=
  inferInstanceAs (Decidable ((flags &&& m) ≠ 0))

/-- Specification, section 4.3 step 1: `has_body = CHUNKED or content_length > 0`. -/
def has_body_spec (K : llhttp_flags) (s : llhttp_t) : Prop :=
  flagSet s.flags K.F_CHUNKED ∨ s.content_length > 0

instance instDecidableHasBodySpec (K : llhttp_flags) (s : llhttp_t) :
    Decidable (has_body_spec K s) :=
  inferInstanceAs (Decidable (flagSet s.flags K.F_CHUNKED ∨ s.content_length > 0))

/-- Specification, section 4.3 step 2: the condition of the outcome UPGRADE_HANDOFF. -/
def handoff_spec (K : llhttp_flags) (s : llhttp_t) : Prop :=
  s.upgrade ≠ 0 ∧
    (flagSet s.flags K.F_METHOD_CONNECT ∨ flagSet s.flags K.F_SKIPBODY ∨ ¬ has_body_spec K s)

instance instDecidableHandoffSpec (K : llhttp_flags) (s : llhttp_t) :
    Decidable (handoff_spec K s) :=
  inferInstanceAs (Decidable (s.upgrade ≠ 0 ∧
    (flagSet s.flags K.F_METHOD_CONNECT ∨ flagSet s.flags K.F_SKIPBODY ∨ ¬ has_body_spec K s)))

/-- Specification, section 4.3: the precedence procedure of the Body Framing Resolver,
written from the words of the specification. Outcomes: 0 NO_BODY, 1 UPGRADE_HANDOFF,
2 CHUNKED_BODY, 3 CONTENT_LENGTH_BODY, 4 EOF_BODY, 5 INVALID_TRANSFER_ENCODING. -/
def body_framing_spec (K : llhttp_flags) (s : llhttp_t) : Int :=
  if handoff_spec K s then 1
  else if flagSet s.flags K.F_SKIPBODY then 0
  else if flagSet s.flags K.F_CHUNKED then 2
  else if flagSet s.flags K.F_TRANSFER_ENCODING then
    (if s.type = llhttp_type_t.HTTP_REQUEST ∧ ¬ flagSet s.flags K.F_LENIENT then 5 else 4)
  else if ¬ flagSet s.flags K.F_CONTENT_LENGTH then
    (if llhttp_message_needs_eof K s ≠ 0 then 4 else 0)
  else if s.content_length = 0 then 0
  else 3

/-- Specification, section 4.4, the case `kind == RESPONSE` of the EOF-Termination
Predicate, written from the words of the specification (1 is true, 0 is false). -/
def eof_termination_response_spec (K : llhttp_flags) (s : llhttp_t) : Int :=
  if s.status_code / 100 = 1 ∨ s.status_code = 204 ∨ s.status_code = 304 ∨
      flagSet s.flags K.F_SKIPBODY then 0
  else if flagSet s.flags K.F_TRANSFER_ENCODING ∧ ¬ flagSet s.flags K.F_CHUNKED then 1
  else if flagSet s.flags K.F_CHUNKED ∨ flagSet s.flags K.F_CONTENT_LENGTH then 0
  else 1

/-- Specification, section 4.5: the candidate of the Keep-Alive Predicate. -/
def keep_alive_candidate (K : llhttp_flags) (s : llhttp_t) : Prop :=
  if s.http_major > 0 ∧ s.http_minor > 0 then ¬ flagSet s.flags K.F_CONNECTION_CLOSE
  else flagSet s.flags K.F_CONNECTION_KEEP_ALIVE

instance instDecidableKeepAliveCandidate (K : llhttp_flags) (s : llhttp_t) :
    Decidable (keep_alive_candidate K s) :=
  inferInstanceAs (Decidable (if s.http_major > 0 ∧ s.http_minor > 0
    then ¬ flagSet s.flags K.F_CONNECTION_CLOSE
    else flagSet s.flags K.F_CONNECTION_KEEP_ALIVE))

/-- Specification, section 4.2: the value the Upgrade Detector gives `upgrade`. -/
def upgrade_spec (K : llhttp_flags) (s : llhttp_t) : Nat :=
  if flagSet s.flags K.F_UPGRADE ∧ flagSet s.flags K.F_CONNECTION_UPGRADE then
    (if s.type = llhttp_type_t.HTTP_REQUEST ∨ s.status_code = 101 then 1 else 0)
  else
    (if flagSet s.flags K.F_METHOD_CONNECT then 1 else 0)

/-- The nine masks other than `F_LENIENT`: the per-message flags. -/
def otherFlags (K : llhttp_flags) : List Nat :=
  [K.F_CONNECTION_KEEP_ALIVE, K.F_CONNECTION_CLOSE, K.F_CONNECTION_UPGRADE, K.F_CHUNKED,
   K.F_UPGRADE, K.F_CONTENT_LENGTH, K.F_SKIPBODY, K.F_TRANSFER_ENCODING, K.F_METHOD_CONNECT]

/-- Every mask of the list `ks` has no bit in common with the mask `m`. -/
def masksApart (m : Nat) (ks : List Nat) : Prop := ∀ k ∈ ks, k &&& m = 0

instance instDecidableMasksApart (m : Nat) (ks : List Nat) : Decidable (masksApart m ks) :=
  inferInstanceAs (Decidable (∀ k ∈ ks, k &&& m = 0))

/-- Two flag words differ at most in the bits of the mask `m`. -/
def sameOutside (m f1 f2 : Nat) : Prop := f1 ||| m = f2 ||| m

instance instDecidableSameOutside (m f1 f2 : Nat) : Decidable (sameOutside m f1 f2) :=
  inferInstanceAs (Decidable (f1 ||| m = f2 ||| m))

/-- The method token of a call on a request: the span from `parser->method`, which is `p`
when no method start was stored, up to `endp`. -/
def methodStart (s : llhttp_t) (p : Nat) : Nat := if s.method = 0 then p else s.method

/-- The span `[start, endp)` of the memory `mem` is exactly the 7 bytes `CONNECT`. -/
def spanIsConnect (mem : Nat → Nat) (start endp : Nat) : Prop :=
  (endp : Int) - (start : Int) = 7 ∧ ∀ i : Fin 7, mem (start + i.val) = HTTP_CONNECT.getD i.val 0

instance instDecidableSpanIsConnect (mem : Nat → Nat) (start endp : Nat) :
    Decidable (spanIsConnect mem start endp) :=
  inferInstanceAs (Decidable ((endp : Int) - (start : Int) = 7 ∧
    ∀ i : Fin 7, mem (start + i.val) = HTTP_CONNECT.getD i.val 0))

/-- A memory holding `CONNECT` at the addresses 100 to 106 and the byte `X` elsewhere. -/
def sampleMemory (a : Nat) : Nat :=
  if 100 ≤ a ∧ a < 107 then HTTP_CONNECT.getD (a - 100) 0 else 88

/-- A handler that returns 0. -/
def sampleHandler (_ : llhttp_t) (_ _ : Nat) : Int := 0

/-! ## Reading a flag -/

/-- For a one-bit mask the test `m == (flags & m)` is the test `flags & m`. -/
theorem eq_land_iff_flagSet {m : Nat} (hm : IsFlagBit m) (flags : Nat) :
    m = (flags &&& m) ↔ flagSet flags m := by
  obtain ⟨i, rfl⟩ := hm
  unfold flagSet
  rw [Nat.and_two_pow]
  cases flags.testBit i <;> simp

/-- A test against the union of two masks is the disjunction of the two tests. -/
theorem flagSet_lor (flags a b : Nat) :
    (flags &&& (a ||| b)) ≠ 0 ↔ flagSet flags a ∨ flagSet flags b := by
  unfold flagSet
  rw [Nat.and_or_distrib_left]
  constructor
  · intro h
    by_contra hc
    push_neg at hc
    apply h
    rw [hc.1, hc.2]
    rfl
  · intro h hc
    have h1 : (flags &&& a) = 0 := by
      apply Nat.eq_of_testBit_eq
      intro j
      have := congrArg (fun x => x.testBit j) hc
      simp only [Nat.testBit_or, Nat.zero_testBit, Bool.or_eq_false_iff] at this
      simp [this.1]
    have h2 : (flags &&& b) = 0 := by
      apply Nat.eq_of_testBit_eq
      intro j
      have := congrArg (fun x => x.testBit j) hc
      simp only [Nat.testBit_or, Nat.zero_testBit, Bool.or_eq_false_iff] at this
      simp [this.2]
    rcases h with h | h
    · exact h h1
    · exact h h2

/-- The C `int` `hasBody` is zero exactly when the specification's `has_body` is false. -/
theorem hasBody_eq_zero_iff (K : llhttp_flags) (s : llhttp_t) :
    hasBody K s = 0 ↔ ¬ has_body_spec K s := by
  unfold hasBody has_body_spec flagSet
  split_ifs with h
  · simp [h]
  · simp [h]

/-- The result of `llhttp__after_headers_complete` is the outcome of the procedure. -/
theorem after_headers_complete_fst (K : llhttp_flags) (s : llhttp_t)
    (hK : IsFlagBit K.F_METHOD_CONNECT) :
    (llhttp__after_headers_complete K s).1 = body_framing_spec K s := by
  unfold llhttp__after_headers_complete body_framing_spec handoff_spec
  simp only [eq_land_iff_flagSet hK, hasBody_eq_zero_iff]
  simp only [flagSet]
  split_ifs <;> first | rfl | (exfalso; tauto)

/-- The function `llhttp__after_headers_complete` does not write the state. -/
theorem after_headers_complete_snd (K : llhttp_flags) (s : llhttp_t) :
    (llhttp__after_headers_complete K s).2 = s := by
  unfold llhttp__after_headers_complete
  split_ifs <;> rfl

/-- A state that is not a request and whose status is 1xx, 204 or 304 needs no EOF. -/
theorem needs_eof_of_bodiless_status (K : llhttp_flags) (s : llhttp_t)
    (hst : s.status_code = 204 ∨ s.status_code = 304 ∨ s.status_code / 100 = 1) :
    llhttp_message_needs_eof K s = 0 := by
  unfold llhttp_message_needs_eof
  split_ifs <;> first | rfl | (exfalso; tauto)

/-- A flag word masked by `m` has no bit of a mask that is apart from `m`. -/
theorem land_land_of_apart (flags m k : Nat) (h : k &&& m = 0) :
    ((flags &&& m) &&& k) = 0 := by
  rw [Nat.and_assoc, Nat.and_comm m k, h, Nat.and_zero]

/-- Two flag words that differ at most in the bits of `m` agree on every mask apart from
`m`. -/
theorem land_eq_of_sameOutside {m f1 f2 k : Nat} (h : sameOutside m f1 f2)
    (hk : k &&& m = 0) : (f1 &&& k) = (f2 &&& k) := by
  have key : ∀ f : Nat, ((f ||| m) &&& k) = (f &&& k) := by
    intro f
    rw [Nat.and_comm (f ||| m) k, Nat.and_or_distrib_left, hk, Nat.or_zero, Nat.and_comm]
  rw [← key f1, ← key f2]
  unfold sameOutside at h
  rw [h]

/-- A request needs no EOF. -/
theorem needs_eof_of_request (K : llhttp_flags) (s : llhttp_t)
    (hreq : s.type = llhttp_type_t.HTTP_REQUEST) : llhttp_message_needs_eof K s = 0 := by
  unfold llhttp_message_needs_eof
  rw [if_pos hreq]

/-- The library function `memcmp` returns 0 exactly when the first `n` bytes agree. -/
theorem memcmp_eq_zero_iff (n : Nat) : ∀ s1 s2 : Nat → Nat,
    memcmp s1 s2 n = 0 ↔ ∀ i, i < n → s1 i = s2 i := by
  induction n with
  | zero =>
    intro s1 s2
    simp [memcmp]
  | succ n ih =>
    intro s1 s2
    unfold memcmp
    split_ifs with h0
    · rw [ih]
      constructor
      · intro h i hi
        cases i with
        | zero => exact h0
        | succ j => exact h j (by omega)
      · intro h i hi
        exact h (i + 1) (by omega)
    · constructor
      · intro h
        exfalso
        apply h0
        omega
      · intro h
        exact absurd (h 0 (by omega)) h0

/-- Setting the bits of a one-bit mask sets the flag. -/
theorem flagSet_lor_self {m : Nat} (hm : IsFlagBit m) (flags : Nat) :
    flagSet (flags ||| m) m := by
  apply (eq_land_iff_flagSet hm (flags ||| m)).mp
  apply Nat.eq_of_testBit_eq
  intro i
  simp only [Nat.testBit_and, Nat.testBit_or]
  cases flags.testBit i <;> cases m.testBit i <;> rfl

/-- Clearing the bits of a mask clears the flag. -/
theorem not_flagSet_clearMask (flags m : Nat) : ¬ flagSet (clearMask flags m) m := by
  unfold flagSet clearMask
  have h : ((flags ^^^ (flags &&& m)) &&& m) = 0 := by
    apply Nat.eq_of_testBit_eq
    intro i
    simp only [Nat.testBit_and, Nat.testBit_xor, Nat.zero_testBit]
    cases flags.testBit i <;> cases m.testBit i <;> rfl
  simp [h]

/-- Setting the bits of `m` leaves every mask apart from `m` as it was. -/
theorem lor_land_of_apart (flags m k : Nat) (hk : k &&& m = 0) :
    ((flags ||| m) &&& k) = (flags &&& k) := by
  rw [Nat.and_comm (flags ||| m) k, Nat.and_or_distrib_left, hk, Nat.or_zero, Nat.and_comm]

/-- Clearing the bits of `m` leaves every mask apart from `m` as it was. -/
theorem clearMask_land_of_apart (flags m k : Nat) (hk : k &&& m = 0) :
    ((clearMask flags m) &&& k) = (flags &&& k) := by
  unfold clearMask
  rw [Nat.and_xor_distrib_right, Nat.and_assoc, Nat.and_comm m k, hk, Nat.and_zero]
  simp

/-- The flags after a call of `llhttp__internal_c_on_method` on a request. -/
theorem on_method_request_flags (K : llhttp_flags) (mem : Nat → Nat)
    (on_m on_p : llhttp_t → Nat → Nat → Int) (s : llhttp_t) (p endp : Nat)
    (hreq : s.type = llhttp_type_t.HTTP_REQUEST) :
    (llhttp__internal_c_on_method K mem on_m on_p s p endp).2.1.flags =
      if 7 = (((endp : Int) - (methodStart s p : Int)) % 65536).toNat ∧
          0 = memcmp (fun i => HTTP_CONNECT.getD i 0) (fun i => mem (methodStart s p + i))
                (((endp : Int) - (methodStart s p : Int)) % 65536).toNat then
        s.flags ||| K.F_METHOD_CONNECT
      else clearMask s.flags K.F_METHOD_CONNECT := by
  unfold llhttp__internal_c_on_method methodStart
  by_cases hm : s.method = 0 <;> by_cases hmop : s.method_or_protocol = 0 <;>
    simp [hm, hmop, hreq] <;> split_ifs <;> rfl

/-- For a request whose measured span `[parser->method, endp)` is shorter than 65536 bytes,
`llhttp__internal_c_on_method` sets METHOD_CONNECT exactly when the span is the 7 bytes
`CONNECT`, whatever the flag was before, and leaves every mask apart from it unchanged. -/
theorem on_method_connect_flag_of_short_span (K : llhttp_flags) (mem : Nat → Nat)
    (on_m on_p : llhttp_t → Nat → Nat → Int) (s : llhttp_t) (p endp : Nat)
    (hK : IsFlagBit K.F_METHOD_CONNECT)
    (hreq : s.type = llhttp_type_t.HTTP_REQUEST)
    (hle : methodStart s p ≤ endp) (hlt : endp - methodStart s p < 65536) :
    (flagSet (llhttp__internal_c_on_method K mem on_m on_p s p endp).2.1.flags
        K.F_METHOD_CONNECT ↔ spanIsConnect mem (methodStart s p) endp) ∧
    (∀ k : Nat, k &&& K.F_METHOD_CONNECT = 0 →
      ((llhttp__internal_c_on_method K mem on_m on_p s p endp).2.1.flags &&& k) =
        (s.flags &&& k)) := by
  have hml : (((endp : Int) - (methodStart s p : Int)) % 65536).toNat
      = endp - methodStart s p := by omega
  rw [on_method_request_flags K mem on_m on_p s p endp hreq, hml]
  constructor
  · unfold spanIsConnect
    split_ifs with hc
    · refine ⟨fun _ => ⟨by omega, ?_⟩, fun _ => flagSet_lor_self hK s.flags⟩
      intro i
      have h0 := (memcmp_eq_zero_iff _ _ _).mp hc.2.symm i.val (by omega)
      exact h0.symm
    · refine ⟨fun h => absurd h (not_flagSet_clearMask _ _), fun h => ?_⟩
      exfalso
      apply hc
      have h7 : endp - methodStart s p = 7 := by omega
      refine ⟨h7.symm, ?_⟩
      rw [h7]
      apply Eq.symm
      apply (memcmp_eq_zero_iff _ _ _).mpr
      intro i hi
      exact (h.2 ⟨i, hi⟩).symm
  · intro k hk
    split_ifs
    · exact lor_land_of_apart _ _ _ hk
    · exact clearMask_land_of_apart _ _ _ hk

/-- The verdict of `llhttp_should_keep_alive` is 1 exactly when the candidate holds and no
EOF is needed, and is 0 or 1. -/
theorem should_keep_alive_cases (K : llhttp_flags) (s : llhttp_t) :
    (llhttp_should_keep_alive K s ≠ 0 ↔
      (keep_alive_candidate K s ∧ llhttp_message_needs_eof K s = 0)) ∧
    (llhttp_should_keep_alive K s = 1 ∨ llhttp_should_keep_alive K s = 0) := by
  unfold llhttp_should_keep_alive keep_alive_candidate flagSet
  split_ifs <;> simp_all

/-- The value of `llhttp_message_needs_eof` depends on the flag word only through the tests of
SKIPBODY, TRANSFER_ENCODING, CHUNKED and CONTENT_LENGTH. -/
theorem needs_eof_flags_congr (K : llhttp_flags) (s : llhttp_t) (f2 : Nat)
    (hskip : (s.flags &&& K.F_SKIPBODY) = (f2 &&& K.F_SKIPBODY))
    (hte : (s.flags &&& K.F_TRANSFER_ENCODING) = (f2 &&& K.F_TRANSFER_ENCODING))
    (hch : (s.flags &&& K.F_CHUNKED) = (f2 &&& K.F_CHUNKED))
    (hcl : (s.flags &&& K.F_CONTENT_LENGTH) = (f2 &&& K.F_CONTENT_LENGTH)) :
    llhttp_message_needs_eof K { s with flags := f2 } = llhttp_message_needs_eof K s := by
  unfold llhttp_message_needs_eof
  simp only [flagSet_lor, flagSet, ← hskip, ← hte, ← hch, ← hcl]

/-- For a request the outcome of `llhttp__after_headers_complete` does not depend on
`status_code`. -/
theorem after_headers_complete_status_congr (K : llhttp_flags) (s : llhttp_t) (c : Nat)
    (hreq : s.type = llhttp_type_t.HTTP_REQUEST) :
    (llhttp__after_headers_complete K { s with status_code := c }).1 =
      (llhttp__after_headers_complete K s).1 := by
  have h1 : llhttp_message_needs_eof K { s with status_code := c } = 0 :=
    needs_eof_of_request K _ (by exact hreq)
  unfold llhttp__after_headers_complete hasBody
  rw [h1, needs_eof_of_request K s hreq]
  dsimp only
  split_ifs <;> rfl

/-! ## Body Framing Resolver -/

/-- C1: for every parser state, `llhttp__after_headers_complete` returns exactly the outcome
of the fixed precedence procedure of section 4.3 (handoff, SKIPBODY, CHUNKED,
TRANSFER_ENCODING, no CONTENT_LENGTH flag, zero length, length body) and leaves the state
unchanged; `F_METHOD_CONNECT` is a one-bit mask. -/
theorem after_headers_complete_eq_spec (K : llhttp_flags) (s : llhttp_t)
    (hK : IsFlagBit K.F_METHOD_CONNECT) :
    llhttp__after_headers_complete K s = (body_framing_spec K s, s) :=
  Prod.ext (after_headers_complete_fst K s hK) (after_headers_complete_snd K s)

/-- C1, at a concrete input: a response `HTTP/1.1 200 OK` with `Content-Length: 5`. -/
theorem after_headers_complete_eq_spec_witness :
    IsFlagBit sampleFlags.F_METHOD_CONNECT ∧
    llhttp__after_headers_complete sampleFlags
        { sampleResponse with flags := 0x20, content_length := 5 } =
      (body_framing_spec sampleFlags
        { sampleResponse with flags := 0x20, content_length := 5 },
       { sampleResponse with flags := 0x20, content_length := 5 }) :=
  ⟨⟨10, rfl⟩, after_headers_complete_eq_spec sampleFlags _ ⟨10, rfl⟩⟩

/-- C2, refuted as stated: a non-lenient request with TRANSFER_ENCODING set, CHUNKED clear,
`upgrade` true and `content_length` 0 gets the outcome 1 (UPGRADE_HANDOFF), not 5. -/
theorem invalid_transfer_encoding_counterexample :
    ({ sampleRequest with flags := 0x200, upgrade := 1 } : llhttp_t).type
        = llhttp_type_t.HTTP_REQUEST ∧
    ¬ flagSet 0x200 sampleFlags.F_LENIENT ∧
    flagSet 0x200 sampleFlags.F_TRANSFER_ENCODING ∧
    ¬ flagSet 0x200 sampleFlags.F_CHUNKED ∧
    (llhttp__after_headers_complete sampleFlags
      { sampleRequest with flags := 0x200, upgrade := 1 }).1 = 1 ∧
    (llhttp__after_headers_complete sampleFlags
      { sampleRequest with flags := 0x200, upgrade := 1 }).1 ≠ 5 := by
  decide

/-- C2, amended: for every state with type REQUEST, LENIENT clear, TRANSFER_ENCODING set and
CHUNKED clear, `llhttp__after_headers_complete` returns 5 (INVALID_TRANSFER_ENCODING) exactly
when SKIPBODY is clear and the handoff condition of step 2 does not hold. -/
theorem invalid_transfer_encoding_iff (K : llhttp_flags) (s : llhttp_t)
    (hK : IsFlagBit K.F_METHOD_CONNECT)
    (hreq : s.type = llhttp_type_t.HTTP_REQUEST)
    (hlen : ¬ flagSet s.flags K.F_LENIENT)
    (hte : flagSet s.flags K.F_TRANSFER_ENCODING)
    (hch : ¬ flagSet s.flags K.F_CHUNKED) :
    (llhttp__after_headers_complete K s).1 = 5 ↔
      (¬ flagSet s.flags K.F_SKIPBODY ∧ ¬ handoff_spec K s) := by
  rw [after_headers_complete_fst K s hK]
  unfold body_framing_spec
  split_ifs <;> simp_all

/-- C2, amended, at the input of scenario e: a non-lenient request with
`Transfer-Encoding: gzip` and `Content-Length: 5` and no upgrade gets the outcome 5. -/
theorem invalid_transfer_encoding_iff_witness :
    (llhttp__after_headers_complete sampleFlags
      { sampleRequest with flags := 0x220, content_length := 5 }).1 = 5 :=
  (invalid_transfer_encoding_iff sampleFlags
    { sampleRequest with flags := 0x220, content_length := 5 }
    ⟨10, rfl⟩ rfl (by decide) (by decide) (by decide)).mpr (by decide)

/-- C3: for every state in which the CHUNKED flag is set, `llhttp__after_headers_complete`
never returns 3 (CONTENT_LENGTH_BODY). -/
theorem chunked_never_content_length_body (K : llhttp_flags) (s : llhttp_t)
    (hch : flagSet s.flags K.F_CHUNKED) :
    (llhttp__after_headers_complete K s).1 ≠ 3 := by
  unfold llhttp__after_headers_complete
  unfold flagSet at hch
  split_ifs <;> simp

/-- C3, at a concrete input: a response with both `Transfer-Encoding: chunked` and
`Content-Length: 5`. -/
theorem chunked_never_content_length_body_witness :
    flagSet 0x228 sampleFlags.F_CHUNKED ∧
    (llhttp__after_headers_complete sampleFlags
      { sampleResponse with flags := 0x228, content_length := 5 }).1 ≠ 3 :=
  ⟨by decide, chunked_never_content_length_body sampleFlags
    { sampleResponse with flags := 0x228, content_length := 5 } (by decide)⟩

/-- C4, refuted as stated: a response 204 with TRANSFER_ENCODING set and CHUNKED clear gets
the outcome 4 (EOF_BODY). -/
theorem bodiless_status_eof_counterexample :
    ({ sampleResponse with status_code := 204, flags := 0x200 } : llhttp_t).type
        = llhttp_type_t.HTTP_RESPONSE ∧
    ({ sampleResponse with status_code := 204, flags := 0x200 } : llhttp_t).status_code
        = 204 ∧
    (llhttp__after_headers_complete sampleFlags
      { sampleResponse with status_code := 204, flags := 0x200 }).1 = 4 := by
  decide

/-- C4, amended: for every state with type RESPONSE whose status is 204, 304 or 1xx,
`llhttp__after_headers_complete` returns 4 (EOF_BODY) exactly when TRANSFER_ENCODING is set,
CHUNKED and SKIPBODY are clear and the handoff condition of step 2 does not hold; so never
when TRANSFER_ENCODING is clear or CHUNKED is set. -/
theorem bodiless_status_eof_iff (K : llhttp_flags) (s : llhttp_t)
    (hK : IsFlagBit K.F_METHOD_CONNECT)
    (hresp : s.type = llhttp_type_t.HTTP_RESPONSE)
    (hst : s.status_code = 204 ∨ s.status_code = 304 ∨ s.status_code / 100 = 1) :
    (llhttp__after_headers_complete K s).1 = 4 ↔
      (flagSet s.flags K.F_TRANSFER_ENCODING ∧ ¬ flagSet s.flags K.F_CHUNKED ∧
        ¬ flagSet s.flags K.F_SKIPBODY ∧ ¬ handoff_spec K s) := by
  rw [after_headers_complete_fst K s hK]
  unfold body_framing_spec
  rw [needs_eof_of_bodiless_status K s hst]
  split_ifs <;> simp_all

/-- C4, amended, at a concrete input: a response 304 without framing headers does not get
the outcome 4. -/
theorem bodiless_status_eof_iff_witness :
    (llhttp__after_headers_complete sampleFlags
      { sampleResponse with status_code := 304 }).1 ≠ 4 :=
  fun h => absurd ((bodiless_status_eof_iff sampleFlags
    { sampleResponse with status_code := 304 } ⟨10, rfl⟩ rfl (Or.inr (Or.inl rfl))).mp h).1
    (by decide)

/-- C5: for every state with type REQUEST and the METHOD_CONNECT flag set, running
`llhttp__before_headers_complete` and then `llhttp__after_headers_complete` sets `upgrade`
to 1 (true) and returns 1 (UPGRADE_HANDOFF), whatever the other fields are. -/
theorem connect_request_handoff (K : llhttp_flags) (s : llhttp_t)
    (hK : IsFlagBit K.F_METHOD_CONNECT)
    (hreq : s.type = llhttp_type_t.HTTP_REQUEST)
    (hmc : flagSet s.flags K.F_METHOD_CONNECT) :
    (llhttp__before_headers_complete K s).2.upgrade = 1 ∧
    (llhttp__after_headers_complete K (llhttp__before_headers_complete K s).2).1 = 1 ∧
    (llhttp__after_headers_complete K (llhttp__before_headers_complete K s).2).2.upgrade
      = 1 := by
  have hmc2 : K.F_METHOD_CONNECT = (s.flags &&& K.F_METHOD_CONNECT) :=
    (eq_land_iff_flagSet hK s.flags).mpr hmc
  have hup : (llhttp__before_headers_complete K s).2.upgrade = 1 := by
    unfold llhttp__before_headers_complete
    by_cases h : (s.flags &&& K.F_UPGRADE) ≠ 0 ∧ (s.flags &&& K.F_CONNECTION_UPGRADE) ≠ 0
    · rw [if_pos h, if_pos (Or.inl hreq)]
    · rw [if_neg h, if_pos hmc2]
  have hfl : (llhttp__before_headers_complete K s).2.flags = s.flags := by
    unfold llhttp__before_headers_complete
    split_ifs <;> rfl
  refine ⟨hup, ?_, ?_⟩
  · unfold llhttp__after_headers_complete
    rw [hfl, hup, if_pos ⟨by decide, Or.inl hmc2⟩]
  · rw [after_headers_complete_snd]
    exact hup

/-- C5, at the input of scenario d: `CONNECT host:443 HTTP/1.1` that also carries
`Content-Length: 5`. -/
theorem connect_request_handoff_witness :
    (llhttp__before_headers_complete sampleFlags
      { sampleRequest with flags := 0x420, content_length := 5 }).2.upgrade = 1 ∧
    (llhttp__after_headers_complete sampleFlags (llhttp__before_headers_complete sampleFlags
      { sampleRequest with flags := 0x420, content_length := 5 }).2).1 = 1 :=
  have h := connect_request_handoff sampleFlags
    { sampleRequest with flags := 0x420, content_length := 5 } ⟨10, rfl⟩ rfl (by decide)
  ⟨h.1, h.2.1⟩

/-! ## EOF-Termination Predicate and Keep-Alive Predicate -/

/-- C6: `llhttp_message_needs_eof` equals the EOF-termination reference definition: it is 0
for every state with type REQUEST, and for every state with type RESPONSE it is the value of
the procedure of section 4.4 (status 1xx, 204, 304 or SKIPBODY; TRANSFER_ENCODING without
CHUNKED; CHUNKED or CONTENT_LENGTH; otherwise 1). -/
theorem message_needs_eof_eq_spec (K : llhttp_flags) (s : llhttp_t) :
    (s.type = llhttp_type_t.HTTP_REQUEST → llhttp_message_needs_eof K s = 0) ∧
    (s.type = llhttp_type_t.HTTP_RESPONSE →
      llhttp_message_needs_eof K s = eof_termination_response_spec K s) := by
  constructor
  · intro hreq
    unfold llhttp_message_needs_eof
    rw [if_pos hreq]
  · intro hresp
    have hne : ¬ s.type = llhttp_type_t.HTTP_REQUEST := by
      rw [hresp]
      decide
    unfold llhttp_message_needs_eof eof_termination_response_spec
    rw [if_neg hne]
    simp only [flagSet_lor]
    simp only [flagSet]
    split_ifs <;> first | rfl | (exfalso; tauto)

/-- C6, at concrete inputs: a request with `Transfer-Encoding: gzip` needs no EOF, a response
200 with the same header does. -/
theorem message_needs_eof_eq_spec_witness :
    llhttp_message_needs_eof sampleFlags { sampleRequest with flags := 0x200 } = 0 ∧
    llhttp_message_needs_eof sampleFlags { sampleResponse with flags := 0x200 } =
      eof_termination_response_spec sampleFlags { sampleResponse with flags := 0x200 } ∧
    eof_termination_response_spec sampleFlags { sampleResponse with flags := 0x200 } = 1 :=
  ⟨(message_needs_eof_eq_spec sampleFlags { sampleRequest with flags := 0x200 }).1 rfl,
   (message_needs_eof_eq_spec sampleFlags { sampleResponse with flags := 0x200 }).2 rfl,
   by decide⟩

/-- C7: for every state, `llhttp_should_keep_alive` returns true (1) exactly when the
candidate of section 4.5 holds and `llhttp_message_needs_eof` is false (0), and returns
false (0) otherwise. -/
theorem should_keep_alive_iff (K : llhttp_flags) (s : llhttp_t) :
    (llhttp_should_keep_alive K s ≠ 0 ↔
      (keep_alive_candidate K s ∧ llhttp_message_needs_eof K s = 0)) ∧
    (llhttp_should_keep_alive K s = 1 ∨ llhttp_should_keep_alive K s = 0) := by
  unfold llhttp_should_keep_alive keep_alive_candidate flagSet
  split_ifs <;> simp_all

/-- C8, refuted as stated: a response `HTTP/1.1 200` with the CONTENT_LENGTH flag set,
CONNECTION_CLOSE clear, TRANSFER_ENCODING set and CHUNKED clear is not kept alive. -/
theorem keep_alive_content_length_counterexample :
    ({ sampleResponse with flags := 0x220 } : llhttp_t).http_major = 1 ∧
    ({ sampleResponse with flags := 0x220 } : llhttp_t).http_minor = 1 ∧
    flagSet 0x220 sampleFlags.F_CONTENT_LENGTH ∧
    ¬ flagSet 0x220 sampleFlags.F_CONNECTION_CLOSE ∧
    llhttp_should_keep_alive sampleFlags { sampleResponse with flags := 0x220 } = 0 := by
  decide

/-- C8, amended: for every state with `http_major == 1`, `http_minor == 1`, the
CONTENT_LENGTH flag set and CONNECTION_CLOSE clear, `llhttp_should_keep_alive` returns true
(1) unless the type is not REQUEST, the status is none of 1xx, 204, 304, SKIPBODY is clear,
TRANSFER_ENCODING is set and CHUNKED is clear, where it returns false (0). -/
theorem keep_alive_content_length_iff (K : llhttp_flags) (s : llhttp_t)
    (hmajor : s.http_major = 1) (hminor : s.http_minor = 1)
    (hcl : flagSet s.flags K.F_CONTENT_LENGTH)
    (hcc : ¬ flagSet s.flags K.F_CONNECTION_CLOSE) :
    (llhttp_should_keep_alive K s = 1 ↔
      ¬ (s.type ≠ llhttp_type_t.HTTP_REQUEST ∧
          ¬ (s.status_code / 100 = 1 ∨ s.status_code = 204 ∨ s.status_code = 304) ∧
          ¬ flagSet s.flags K.F_SKIPBODY ∧
          flagSet s.flags K.F_TRANSFER_ENCODING ∧ ¬ flagSet s.flags K.F_CHUNKED)) ∧
    (llhttp_should_keep_alive K s = 1 ∨ llhttp_should_keep_alive K s = 0) := by
  have hcl2 : (s.flags &&& (K.F_CHUNKED ||| K.F_CONTENT_LENGTH)) ≠ 0 :=
    (flagSet_lor s.flags K.F_CHUNKED K.F_CONTENT_LENGTH).mpr (Or.inr hcl)
  unfold flagSet at hcl hcc
  unfold llhttp_should_keep_alive llhttp_message_needs_eof flagSet
  rw [hmajor, hminor]
  split_ifs <;> first | (simp_all; done) | (simp_all; tauto)

/-- C8, amended, at the input of scenario b: a response `HTTP/1.1 200 OK` with
`Content-Length: 5` is kept alive. -/
theorem keep_alive_content_length_iff_witness :
    llhttp_should_keep_alive sampleFlags
      { sampleResponse with flags := 0x20, content_length := 5 } = 1 :=
  (keep_alive_content_length_iff sampleFlags
    { sampleResponse with flags := 0x20, content_length := 5 }
    rfl rfl (by decide) (by decide)).1.mpr (by decide)

/-! ## Upgrade Detector -/

/-- C9: for every state, `llhttp__before_headers_complete` returns 0 and changes only the
field `upgrade`, which becomes (type == REQUEST or status_code == 101) when UPGRADE and
CONNECTION_UPGRADE are both set and (METHOD_CONNECT set) otherwise; every other field is
unchanged and the result does not depend on the previous value of `upgrade`. -/
theorem before_headers_complete_spec (K : llhttp_flags) (s : llhttp_t)
    (hK : IsFlagBit K.F_METHOD_CONNECT) :
    llhttp__before_headers_complete K s = (0, { s with upgrade := upgrade_spec K s }) ∧
    (∀ u : Nat, llhttp__before_headers_complete K { s with upgrade := u } =
      llhttp__before_headers_complete K s) := by
  constructor
  · unfold llhttp__before_headers_complete upgrade_spec
    simp only [eq_land_iff_flagSet hK]
    simp only [flagSet]
    split_ifs <;> rfl
  · intro u
    unfold llhttp__before_headers_complete
    rfl

/-- C9, at the input of scenario f: a response 101 with `Upgrade: websocket` and
`Connection: Upgrade` gets `upgrade` 1; the same headers on a response 200 give 0. -/
theorem before_headers_complete_spec_witness :
    llhttp__before_headers_complete sampleFlags
        { sampleResponse with status_code := 101, flags := 0x14 } =
      (0, { sampleResponse with status_code := 101, flags := 0x14, upgrade := 1 }) ∧
    llhttp__before_headers_complete sampleFlags
        { sampleResponse with status_code := 200, flags := 0x14, upgrade := 1 } =
      (0, { sampleResponse with status_code := 200, flags := 0x14, upgrade := 0 }) :=
  ⟨(before_headers_complete_spec sampleFlags
      { sampleResponse with status_code := 101, flags := 0x14 } ⟨10, rfl⟩).1,
   (before_headers_complete_spec sampleFlags
      { sampleResponse with status_code := 200, flags := 0x14, upgrade := 1 } ⟨10, rfl⟩).1⟩

/-! ## Message Completion Handler -/

/-- C10: for every state `s`, `llhttp__after_message_complete` returns the value of
`llhttp_should_keep_alive` on `s` as it is before the flags are cleared, and sets `finish`
to `HTTP_FINISH_SAFE`; a response `HTTP/1.1 200` with only the CONTENT_LENGTH flag yields
1, and for an `HTTP/1.0` response with `Connection: keep-alive` and `Content-Length` the
verdict 1 differs from the verdict 0 of the state after the reset. -/
theorem after_message_complete_verdict (K : llhttp_flags) (s : llhttp_t) :
    (llhttp__after_message_complete K s).1 = llhttp_should_keep_alive K s ∧
    (llhttp__after_message_complete K s).2.finish = llhttp_finish_t.HTTP_FINISH_SAFE ∧
    (llhttp__after_message_complete sampleFlags { sampleResponse with flags := 0x20 }).1
      = 1 ∧
    (llhttp__after_message_complete sampleFlags
      { sampleResponse with http_minor := 0, flags := 0x21 }).1 = 1 ∧
    llhttp_should_keep_alive sampleFlags (llhttp__after_message_complete sampleFlags
      { sampleResponse with http_minor := 0, flags := 0x21 }).2 = 0 := by
  refine ⟨rfl, rfl, ?_, ?_, ?_⟩ <;> decide

/-- C11: for every state, after `llhttp__after_message_complete` every flag other than
LENIENT is clear and the LENIENT flag has exactly the value it had before the call; the
nine other masks have no bit in common with `F_LENIENT`. -/
theorem after_message_complete_flags (K : llhttp_flags) (s : llhttp_t)
    (hK : masksApart K.F_LENIENT (otherFlags K)) :
    (∀ m ∈ otherFlags K, ¬ flagSet (llhttp__after_message_complete K s).2.flags m) ∧
    ((llhttp__after_message_complete K s).2.flags &&& K.F_LENIENT) =
      (s.flags &&& K.F_LENIENT) ∧
    (flagSet (llhttp__after_message_complete K s).2.flags K.F_LENIENT ↔
      flagSet s.flags K.F_LENIENT) := by
  have hfl : (llhttp__after_message_complete K s).2.flags = (s.flags &&& K.F_LENIENT) := rfl
  have hself : ((s.flags &&& K.F_LENIENT) &&& K.F_LENIENT) = (s.flags &&& K.F_LENIENT) := by
    rw [Nat.and_assoc, Nat.and_self]
  refine ⟨?_, ?_, ?_⟩
  · intro m hm
    unfold flagSet
    rw [hfl, land_land_of_apart s.flags K.F_LENIENT m (hK m hm)]
    simp
  · rw [hfl, hself]
  · unfold flagSet
    rw [hfl, hself]

/-- C11, at a concrete input: a lenient `HTTP/1.1` response with every flag set keeps only
the LENIENT flag. -/
theorem after_message_complete_flags_witness :
    masksApart sampleFlags.F_LENIENT (otherFlags sampleFlags) ∧
    (∀ m ∈ otherFlags sampleFlags, ¬ flagSet (llhttp__after_message_complete sampleFlags
      { sampleResponse with flags := 0x77f }).2.flags m) ∧
    flagSet (llhttp__after_message_complete sampleFlags
      { sampleResponse with flags := 0x77f }).2.flags sampleFlags.F_LENIENT :=
  have h := after_message_complete_flags sampleFlags
    { sampleResponse with flags := 0x77f } (by decide)
  ⟨by decide, h.1, h.2.2.mpr (by decide)⟩

/-- C12, refuted as stated: on a state with `content_length` 5, `upgrade` 1 and a pending
token at address 7, `llhttp__after_message_complete` leaves the three fields as they are;
and from `content_length` 0 it leaves 0, so no single sentinel is written. -/
theorem after_message_complete_reset_counterexample :
    (llhttp__after_message_complete sampleFlags
      { sampleResponse with flags := 0x20, content_length := 5, upgrade := 1,
                            method_or_protocol := 7 }).2.upgrade = 1 ∧
    (llhttp__after_message_complete sampleFlags
      { sampleResponse with flags := 0x20, content_length := 5, upgrade := 1,
                            method_or_protocol := 7 }).2.content_length = 5 ∧
    (llhttp__after_message_complete sampleFlags
      { sampleResponse with flags := 0x20, content_length := 5, upgrade := 1,
                            method_or_protocol := 7 }).2.method_or_protocol = 7 ∧
    (llhttp__after_message_complete sampleFlags
      { sampleResponse with flags := 0x20, content_length := 0, upgrade := 1,
                            method_or_protocol := 7 }).2.content_length = 0 := by
  decide

/-- C12, amended: for every state, `llhttp__after_message_complete` writes only `finish`
and `flags`; `content_length`, `upgrade` and `method_or_protocol` (and every other field)
keep the values they had before the call. -/
theorem after_message_complete_frame (K : llhttp_flags) (s : llhttp_t) :
    (llhttp__after_message_complete K s).2 =
      { s with finish := llhttp_finish_t.HTTP_FINISH_SAFE,
               flags := s.flags &&& K.F_LENIENT } ∧
    (llhttp__after_message_complete K s).2.content_length = s.content_length ∧
    (llhttp__after_message_complete K s).2.upgrade = s.upgrade ∧
    (llhttp__after_message_complete K s).2.method_or_protocol = s.method_or_protocol :=
  ⟨rfl, rfl, rfl, rfl⟩

/-! ## Method/Protocol Token Resolver -/

/-- C13, the code at the failing input: a request whose method token is the 65543 bytes
`CONNECT` followed by 65536 bytes `X` (span from address 100 to 65643) gets
`method_length` 7 by the cast to `uint16_t` and the METHOD_CONNECT flag set, although the
span is not the 7 bytes `CONNECT`. -/
theorem on_method_connect_truncation :
    sampleRequest.type = llhttp_type_t.HTTP_REQUEST ∧
    methodStart sampleRequest 100 = 100 ∧
    ¬ spanIsConnect sampleMemory 100 65643 ∧
    (llhttp__internal_c_on_method sampleFlags sampleMemory sampleHandler sampleHandler
      sampleRequest 100 65643).2.1.method_length = 7 ∧
    flagSet (llhttp__internal_c_on_method sampleFlags sampleMemory sampleHandler
      sampleHandler sampleRequest 100 65643).2.1.flags sampleFlags.F_METHOD_CONNECT := by
  decide

/-- C14: for every call of `llhttp__internal_c_on_method` on a state whose type is REQUEST
or RESPONSE, `method_or_protocol` is unset (0) after the call and the handler
(`llhttp__on_method` for REQUEST, `llhttp__on_protocol` for RESPONSE) is called with the
stored pending start when one was stored and with the current `p` otherwise, up to `endp`;
the result of the call is the handler's result. -/
theorem on_method_dispatch (K : llhttp_flags) (mem : Nat → Nat)
    (on_m on_p : llhttp_t → Nat → Nat → Int) (s : llhttp_t) (p endp : Nat) :
    (s.type = llhttp_type_t.HTTP_REQUEST →
      (llhttp__internal_c_on_method K mem on_m on_p s p endp).2.1.method_or_protocol = 0 ∧
      (llhttp__internal_c_on_method K mem on_m on_p s p endp).2.2 =
        handler_call_t.on_method
          (if s.method_or_protocol ≠ 0 then s.method_or_protocol else p) endp ∧
      (llhttp__internal_c_on_method K mem on_m on_p s p endp).1 =
        on_m (llhttp__internal_c_on_method K mem on_m on_p s p endp).2.1
          (if s.method_or_protocol ≠ 0 then s.method_or_protocol else p) endp) ∧
    (s.type = llhttp_type_t.HTTP_RESPONSE →
      (llhttp__internal_c_on_method K mem on_m on_p s p endp).2.1.method_or_protocol = 0 ∧
      (llhttp__internal_c_on_method K mem on_m on_p s p endp).2.2 =
        handler_call_t.on_protocol
          (if s.method_or_protocol ≠ 0 then s.method_or_protocol else p) endp ∧
      (llhttp__internal_c_on_method K mem on_m on_p s p endp).1 =
        on_p (llhttp__internal_c_on_method K mem on_m on_p s p endp).2.1
          (if s.method_or_protocol ≠ 0 then s.method_or_protocol else p) endp) := by
  constructor
  · intro hreq
    unfold llhttp__internal_c_on_method
    by_cases hm : s.method = 0 <;> by_cases hmop : s.method_or_protocol = 0 <;>
      simp [hm, hmop, hreq] <;> split_ifs <;> simp
  · intro hresp
    unfold llhttp__internal_c_on_method
    by_cases hm : s.method = 0 <;> by_cases hmop : s.method_or_protocol = 0 <;>
      simp [hm, hmop, hresp]

/-- C14, at concrete inputs: a request and a response, each with a pending token stored at
address 100 and called with `p` 104, hand the span from 100 to their handler and end with no
pending token. -/
theorem on_method_dispatch_witness :
    ((llhttp__internal_c_on_method sampleFlags sampleMemory sampleHandler sampleHandler
        { sampleRequest with method := 100, method_or_protocol := 100 } 104 107
      ).2.1.method_or_protocol = 0 ∧
     (llhttp__internal_c_on_method sampleFlags sampleMemory sampleHandler sampleHandler
        { sampleRequest with method := 100, method_or_protocol := 100 } 104 107).2.2 =
      handler_call_t.on_method 100 107) ∧
    ((llhttp__internal_c_on_method sampleFlags sampleMemory sampleHandler sampleHandler
        { sampleResponse with method := 100, method_or_protocol := 100 } 104 107
      ).2.1.method_or_protocol = 0 ∧
     (llhttp__internal_c_on_method sampleFlags sampleMemory sampleHandler sampleHandler
        { sampleResponse with method := 100, method_or_protocol := 100 } 104 107).2.2 =
      handler_call_t.on_protocol 100 107) :=
  have hq := (on_method_dispatch sampleFlags sampleMemory sampleHandler sampleHandler
    { sampleRequest with method := 100, method_or_protocol := 100 } 104 107).1 rfl
  have hr := (on_method_dispatch sampleFlags sampleMemory sampleHandler sampleHandler
    { sampleResponse with method := 100, method_or_protocol := 100 } 104 107).2 rfl
  ⟨⟨hq.1, hq.2.1⟩, ⟨hr.1, hr.2.1⟩⟩

/-- C15: for every call of `llhttp__internal_c_on_method` on a state with type HTTP_BOTH
and no pending token, the call stores the current span start `p` as the pending token,
returns 0 without calling `llhttp__on_method` or `llhttp__on_protocol`, and leaves the flags
unchanged. -/
theorem on_method_both_stores_pending (K : llhttp_flags) (mem : Nat → Nat)
    (on_m on_p : llhttp_t → Nat → Nat → Int) (s : llhttp_t) (p endp : Nat)
    (hboth : s.type = llhttp_type_t.HTTP_BOTH) (hmop : s.method_or_protocol = 0) :
    (llhttp__internal_c_on_method K mem on_m on_p s p endp).2.1.method_or_protocol = p ∧
    (llhttp__internal_c_on_method K mem on_m on_p s p endp).1 = 0 ∧
    (llhttp__internal_c_on_method K mem on_m on_p s p endp).2.2 = handler_call_t.no_call ∧
    (llhttp__internal_c_on_method K mem on_m on_p s p endp).2.1.flags = s.flags := by
  unfold llhttp__internal_c_on_method
  by_cases hm : s.method = 0 <;> simp [hm, hmop, hboth]

/-- C15, at a concrete input: a state of type HTTP_BOTH with the METHOD_CONNECT flag set
and no pending token, called on the span `CONNECT` at address 100. -/
theorem on_method_both_stores_pending_witness :
    (llhttp__internal_c_on_method sampleFlags sampleMemory sampleHandler sampleHandler
      { sampleRequest with type := llhttp_type_t.HTTP_BOTH, flags := 0x400 } 100 107
      ).2.1.method_or_protocol = 100 ∧
    (llhttp__internal_c_on_method sampleFlags sampleMemory sampleHandler sampleHandler
      { sampleRequest with type := llhttp_type_t.HTTP_BOTH, flags := 0x400 } 100 107
      ).2.1.flags = 0x400 :=
  have h := on_method_both_stores_pending sampleFlags sampleMemory sampleHandler
    sampleHandler { sampleRequest with type := llhttp_type_t.HTTP_BOTH, flags := 0x400 }
    100 107 rfl rfl
  ⟨h.1, h.2.2.2⟩

/-! ## Relations between the resolver and the predicates -/

/-- C16, refuted as stated: a lenient `HTTP/1.1` request with TRANSFER_ENCODING set and
CHUNKED clear gets the outcome 4 (EOF_BODY) and is kept alive; so is a response 204 with
the same header. -/
theorem eof_body_keep_alive_counterexample :
    (llhttp__after_headers_complete sampleFlags { sampleRequest with flags := 0x300 }).1
      = 4 ∧
    llhttp_should_keep_alive sampleFlags { sampleRequest with flags := 0x300 } = 1 ∧
    (llhttp__after_headers_complete sampleFlags
      { sampleResponse with status_code := 204, flags := 0x200 }).1 = 4 ∧
    llhttp_should_keep_alive sampleFlags
      { sampleResponse with status_code := 204, flags := 0x200 } = 1 := by
  decide

/-- C16, amended: for every state on which `llhttp__after_headers_complete` returns 4
(EOF_BODY), `llhttp_should_keep_alive` returns false (0), unless TRANSFER_ENCODING is set
and the state is a request or has a status 1xx, 204 or 304: there the verdict is the
candidate of section 4.5. -/
theorem eof_body_keep_alive (K : llhttp_flags) (s : llhttp_t)
    (h4 : (llhttp__after_headers_complete K s).1 = 4) :
    (llhttp_should_keep_alive K s ≠ 0 ↔
      (keep_alive_candidate K s ∧ flagSet s.flags K.F_TRANSFER_ENCODING ∧
        (s.type = llhttp_type_t.HTTP_REQUEST ∨ s.status_code / 100 = 1 ∨
          s.status_code = 204 ∨ s.status_code = 304))) ∧
    (llhttp_should_keep_alive K s = 1 ∨ llhttp_should_keep_alive K s = 0) := by
  have hskip : (s.flags &&& K.F_SKIPBODY) = 0 := by
    by_contra hc
    unfold llhttp__after_headers_complete at h4
    split_ifs at h4 <;> simp at h4
  have hcases : ((s.flags &&& K.F_TRANSFER_ENCODING) ≠ 0 ∧ (s.flags &&& K.F_CHUNKED) = 0) ∨
      ((s.flags &&& K.F_TRANSFER_ENCODING) = 0 ∧ llhttp_message_needs_eof K s ≠ 0) := by
    unfold llhttp__after_headers_complete at h4
    split_ifs at h4 <;> first | (simp at h4; done) | tauto
  have hneeds : llhttp_message_needs_eof K s = 0 ↔
      ((s.flags &&& K.F_TRANSFER_ENCODING) ≠ 0 ∧
        (s.type = llhttp_type_t.HTTP_REQUEST ∨ s.status_code / 100 = 1 ∨
          s.status_code = 204 ∨ s.status_code = 304)) := by
    rcases hcases with ⟨hte, hch⟩ | ⟨hte, hne⟩
    · unfold llhttp_message_needs_eof
      split_ifs <;> (simp; tauto)
    · constructor
      · intro h
        exact absurd h hne
      · intro h
        exact absurd hte h.1
  have hska := should_keep_alive_cases K s
  unfold flagSet
  rw [← hneeds]
  exact hska

/-- C16, amended, at the input of scenario c: a response `HTTP/1.0 200 OK` without headers
gets the outcome 4 and is not kept alive. -/
theorem eof_body_keep_alive_witness :
    (llhttp__after_headers_complete sampleFlags { sampleResponse with http_minor := 0 }).1
      = 4 ∧
    ¬ (llhttp_should_keep_alive sampleFlags { sampleResponse with http_minor := 0 } ≠ 0) :=
  ⟨by decide, fun hne => absurd ((eof_body_keep_alive sampleFlags
    { sampleResponse with http_minor := 0 } (by decide)).1.mp hne) (by decide)⟩

/-- C17: for a state with LENIENT clear and the state that differs from it only in the
LENIENT flag, set there, `llhttp__after_headers_complete` returns the same outcome on both,
except when type is REQUEST, TRANSFER_ENCODING is set, CHUNKED and SKIPBODY are clear and
the handoff condition of step 2 does not hold: there the non-lenient state yields 5 and the
lenient state yields 4. `F_LENIENT` has no bit in common with the masks the function
reads and `F_METHOD_CONNECT` is a one-bit mask. -/
theorem lenient_changes_one_case (K : llhttp_flags) (s : llhttp_t) (f2 : Nat)
    (hK : IsFlagBit K.F_METHOD_CONNECT)
    (hA : masksApart K.F_LENIENT [K.F_SKIPBODY, K.F_CHUNKED, K.F_TRANSFER_ENCODING,
      K.F_CONTENT_LENGTH, K.F_METHOD_CONNECT])
    (hsame : sameOutside K.F_LENIENT s.flags f2)
    (h1 : ¬ flagSet s.flags K.F_LENIENT) (h2 : flagSet f2 K.F_LENIENT) :
    ((s.type = llhttp_type_t.HTTP_REQUEST ∧ flagSet s.flags K.F_TRANSFER_ENCODING ∧
        ¬ flagSet s.flags K.F_CHUNKED ∧ ¬ flagSet s.flags K.F_SKIPBODY ∧
        ¬ handoff_spec K s) →
      (llhttp__after_headers_complete K s).1 = 5 ∧
      (llhttp__after_headers_complete K { s with flags := f2 }).1 = 4) ∧
    (¬ (s.type = llhttp_type_t.HTTP_REQUEST ∧ flagSet s.flags K.F_TRANSFER_ENCODING ∧
        ¬ flagSet s.flags K.F_CHUNKED ∧ ¬ flagSet s.flags K.F_SKIPBODY ∧
        ¬ handoff_spec K s) →
      (llhttp__after_headers_complete K s).1 =
        (llhttp__after_headers_complete K { s with flags := f2 }).1) := by
  have eskip : flagSet f2 K.F_SKIPBODY = flagSet s.flags K.F_SKIPBODY := by
    unfold flagSet
    rw [land_eq_of_sameOutside hsame (hA K.F_SKIPBODY (by simp))]
  have ech : flagSet f2 K.F_CHUNKED = flagSet s.flags K.F_CHUNKED := by
    unfold flagSet
    rw [land_eq_of_sameOutside hsame (hA K.F_CHUNKED (by simp))]
  have ete : flagSet f2 K.F_TRANSFER_ENCODING = flagSet s.flags K.F_TRANSFER_ENCODING := by
    unfold flagSet
    rw [land_eq_of_sameOutside hsame (hA K.F_TRANSFER_ENCODING (by simp))]
  have ecl : flagSet f2 K.F_CONTENT_LENGTH = flagSet s.flags K.F_CONTENT_LENGTH := by
    unfold flagSet
    rw [land_eq_of_sameOutside hsame (hA K.F_CONTENT_LENGTH (by simp))]
  have emc : flagSet f2 K.F_METHOD_CONNECT = flagSet s.flags K.F_METHOD_CONNECT := by
    unfold flagSet
    rw [land_eq_of_sameOutside hsame (hA K.F_METHOD_CONNECT (by simp))]
  have eneeds : llhttp_message_needs_eof K { s with flags := f2 } =
      llhttp_message_needs_eof K s :=
    needs_eof_flags_congr K s f2
      (land_eq_of_sameOutside hsame (hA K.F_SKIPBODY (by simp)))
      (land_eq_of_sameOutside hsame (hA K.F_TRANSFER_ENCODING (by simp)))
      (land_eq_of_sameOutside hsame (hA K.F_CHUNKED (by simp)))
      (land_eq_of_sameOutside hsame (hA K.F_CONTENT_LENGTH (by simp)))
  have ehand : handoff_spec K { s with flags := f2 } = handoff_spec K s := by
    unfold handoff_spec has_body_spec
    simp only [eskip, ech, emc]
  rw [after_headers_complete_fst K s hK, after_headers_complete_fst K _ hK]
  unfold body_framing_spec
  simp only [eneeds, ehand, eskip, ech, ete, ecl]
  constructor
  · rintro ⟨hreq, hte, hch, hsk, hho⟩
    simp [hho, hsk, hch, hte, hreq, h1, h2]
  · intro h
    by_cases hho : handoff_spec K s
    · simp [hho]
    · by_cases hsk : flagSet s.flags K.F_SKIPBODY
      · simp [hho, hsk]
      · by_cases hch : flagSet s.flags K.F_CHUNKED
        · simp [hho, hsk, hch]
        · by_cases hte : flagSet s.flags K.F_TRANSFER_ENCODING
          · have hreq : ¬ s.type = llhttp_type_t.HTTP_REQUEST :=
              fun hreq => h ⟨hreq, hte, hch, hsk, hho⟩
            simp [hho, hsk, hch, hte, hreq]
          · simp [hho, hsk, hch, hte]

/-- C17, at concrete inputs: a request with `Transfer-Encoding: gzip` and `Content-Length: 5`
gets 5 when strict and 4 when lenient; a response with `Content-Length: 5` gets the same
outcome in both modes. -/
theorem lenient_changes_one_case_witness :
    ((llhttp__after_headers_complete sampleFlags
        { sampleRequest with flags := 0x220, content_length := 5 }).1 = 5 ∧
     (llhttp__after_headers_complete sampleFlags
        { sampleRequest with flags := 0x320, content_length := 5 }).1 = 4) ∧
    (llhttp__after_headers_complete sampleFlags
        { sampleResponse with flags := 0x20, content_length := 5 }).1 =
      (llhttp__after_headers_complete sampleFlags
        { sampleResponse with flags := 0x120, content_length := 5 }).1 :=
  ⟨(lenient_changes_one_case sampleFlags
      { sampleRequest with flags := 0x220, content_length := 5 } 0x320
      ⟨10, rfl⟩ (by decide) (by decide) (by decide) (by decide)).1 (by decide),
   (lenient_changes_one_case sampleFlags
      { sampleResponse with flags := 0x20, content_length := 5 } 0x120
      ⟨10, rfl⟩ (by decide) (by decide) (by decide) (by decide)).2 (by decide)⟩

/-- C18: for every state with CHUNKED set and every state that differs from it only in
`content_length` and in the CONTENT_LENGTH flag, CHUNKED is set in both and
`llhttp__after_headers_complete` returns the same outcome; `F_CONTENT_LENGTH` has no bit in
common with `F_CHUNKED`, `F_SKIPBODY` and `F_METHOD_CONNECT`. -/
theorem chunked_ignores_content_length (K : llhttp_flags) (s : llhttp_t) (f2 c2 : Nat)
    (hA : masksApart K.F_CONTENT_LENGTH [K.F_CHUNKED, K.F_SKIPBODY, K.F_METHOD_CONNECT])
    (hch : flagSet s.flags K.F_CHUNKED)
    (hsame : sameOutside K.F_CONTENT_LENGTH s.flags f2) :
    flagSet f2 K.F_CHUNKED ∧
    (llhttp__after_headers_complete K s).1 =
      (llhttp__after_headers_complete K { s with flags := f2, content_length := c2 }).1 := by
  have eskip := land_eq_of_sameOutside hsame (hA K.F_SKIPBODY (by simp))
  have ech := land_eq_of_sameOutside hsame (hA K.F_CHUNKED (by simp))
  have emc := land_eq_of_sameOutside hsame (hA K.F_METHOD_CONNECT (by simp))
  unfold flagSet at hch ⊢
  refine ⟨by rw [← ech]; exact hch, ?_⟩
  unfold llhttp__after_headers_complete hasBody
  simp only [← eskip, ← ech, ← emc]
  split_ifs <;> first | rfl | (exfalso; simp_all)

/-- C18, at a concrete input: a chunked response with `Content-Length: 5` and the same
response without a Content-Length header get the same outcome. -/
theorem chunked_ignores_content_length_witness :
    flagSet 0x28 sampleFlags.F_CHUNKED ∧ sameOutside sampleFlags.F_CONTENT_LENGTH 0x28 0x8 ∧
    (llhttp__after_headers_complete sampleFlags
        { sampleResponse with flags := 0x28, content_length := 5 }).1 =
      (llhttp__after_headers_complete sampleFlags
        { sampleResponse with flags := 0x8, content_length := 0 }).1 :=
  ⟨by decide, by decide,
   (chunked_ignores_content_length sampleFlags
      { sampleResponse with flags := 0x28, content_length := 5 } 0x8 0
      (by decide) (by decide) (by decide)).2⟩

/-- C19: for every state with type REQUEST and LENIENT clear,
`llhttp__after_headers_complete` never returns 4 (EOF_BODY). -/
theorem strict_request_never_eof_body (K : llhttp_flags) (s : llhttp_t)
    (hreq : s.type = llhttp_type_t.HTTP_REQUEST)
    (hlen : ¬ flagSet s.flags K.F_LENIENT) :
    (llhttp__after_headers_complete K s).1 ≠ 4 := by
  unfold flagSet at hlen
  unfold llhttp__after_headers_complete
  rw [needs_eof_of_request K s hreq]
  split_ifs <;> first | (simp; done) | (exfalso; tauto)

/-- C19, at a concrete input: a strict request with `Transfer-Encoding: gzip`. -/
theorem strict_request_never_eof_body_witness :
    (llhttp__after_headers_complete sampleFlags { sampleRequest with flags := 0x200 }).1
      ≠ 4 :=
  strict_request_never_eof_body sampleFlags { sampleRequest with flags := 0x200 } rfl
    (by decide)

/-- C20: for every state with type REQUEST and every other value of `status_code`,
`llhttp__before_headers_complete` computes the same `upgrade`, the subsequent
`llhttp__after_headers_complete` returns the same outcome, and
`llhttp_message_needs_eof` and `llhttp_should_keep_alive` return the same results. -/
theorem request_ignores_status_code (K : llhttp_flags) (s : llhttp_t) (c : Nat)
    (hreq : s.type = llhttp_type_t.HTTP_REQUEST) :
    (llhttp__before_headers_complete K { s with status_code := c }).2.upgrade =
      (llhttp__before_headers_complete K s).2.upgrade ∧
    (llhttp__after_headers_complete K
        (llhttp__before_headers_complete K { s with status_code := c }).2).1 =
      (llhttp__after_headers_complete K (llhttp__before_headers_complete K s).2).1 ∧
    llhttp_message_needs_eof K { s with status_code := c } =
      llhttp_message_needs_eof K s ∧
    llhttp_should_keep_alive K { s with status_code := c } =
      llhttp_should_keep_alive K s := by
  have hn2 : llhttp_message_needs_eof K { s with status_code := c } = 0 :=
    needs_eof_of_request K _ (by exact hreq)
  have hneeds : llhttp_message_needs_eof K { s with status_code := c } =
      llhttp_message_needs_eof K s := by
    rw [hn2, needs_eof_of_request K s hreq]
  have hb : (llhttp__before_headers_complete K { s with status_code := c }).2 =
      { (llhttp__before_headers_complete K s).2 with status_code := c } := by
    unfold llhttp__before_headers_complete
    simp only [hreq, true_or]
    split_ifs <;> rfl
  have hbt : (llhttp__before_headers_complete K s).2.type = llhttp_type_t.HTTP_REQUEST := by
    unfold llhttp__before_headers_complete
    split_ifs <;> exact hreq
  refine ⟨?_, ?_, hneeds, ?_⟩
  · rw [hb]
  · rw [hb]
    exact after_headers_complete_status_congr K _ c hbt
  · unfold llhttp_should_keep_alive
    rw [hneeds]

/-- C20, at a concrete input: a request with `Upgrade` and `Connection: upgrade`, with
`status_code` 0 and 101. -/
theorem request_ignores_status_code_witness :
    (llhttp__before_headers_complete sampleFlags
      { sampleRequest with flags := 0x14, status_code := 101 }).2.upgrade =
      (llhttp__before_headers_complete sampleFlags
        { sampleRequest with flags := 0x14 }).2.upgrade ∧
    llhttp_should_keep_alive sampleFlags
      { sampleRequest with flags := 0x14, status_code := 101 } =
      llhttp_should_keep_alive sampleFlags { sampleRequest with flags := 0x14 } :=
  have h := request_ignores_status_code sampleFlags { sampleRequest with flags := 0x14 }
    101 rfl
  ⟨h.1, h.2.2.2⟩

end Llhttp
